import Mathlib

/-!
Verification of the client-side chat-session coordinator of the Chat_App
repository. The definitions below are a shallow embedding of the relevant
TypeScript source: the message-log handlers of the random-chat screen
(`src/app/(tabs)/home/chat.tsx`), the room-id derivation, and the socket
store (`connectSocket`, `resetRandomChatState` in the zustand store that
the screens import). Timestamps are modelled as `Int` (JS numbers used as
millisecond epoch times), and JS `null`-able strings as `Option String`.
-/

namespace ChatApp

/-- Sender role of a log entry: `user` is the local side and `partner` the remote side (the same
words in the source). -/
inductive Sender where
  | user
  | partner
deriving DecidableEq

/-- Message log entry, from the `Message` interface of chat.tsx:
`{ text, sender, timestamp, seen }` (the optional friend-request `type`
field is not involved in the claims below). -/
structure Msg where
  text : String
  sender : Sender
  timestamp : Int
  seen : Bool
deriving DecidableEq

/-- Dedup window constant `DEDUPE_WINDOW = 1000` from chat.tsx. -/
def DEDUPE_WINDOW : Int := 1000

/-- Grace period constant `DISCONNECT_GRACE_PERIOD = 60000` from chat.tsx. -/
def DISCONNECT_GRACE_PERIOD : Int := 60000

/-- The duplicate test of `messageListener` in chat.tsx: filter the log to
entries whose timestamp is within `DEDUPE_WINDOW` of the incoming one
(`Math.abs(msg.timestamp - timestamp) < DEDUPE_WINDOW`), then ask whether
some such entry has identical text and sender `partner`. -/
def hasRecentDuplicate (log : List Msg) (message : String) (timestamp : Int) : Bool :=
  (log.filter (fun m => decide ((m.timestamp - timestamp).natAbs < 1000))).any
    (fun m => decide (m.text = message) && decide (m.sender = Sender.partner))

/-- Effect of `messageListener` (chat.tsx lines 109-132) on the `messages`
state for a `receive_message` event `{ message, fromUserId, timestamp }`:
self-echo guard first (`fromUserId === userId` returns unchanged), then the
partner check, then the dedup filter; a non-duplicate is appended as
`text = message, sender = partner, timestamp, seen = false`. The
seen-receipt emission (`emitMessageSeen`) does not touch the log and is not
modelled here. -/
def receiveMessage (userId partnerId : Option String) (log : List Msg)
    (message : String) (fromUserId : String) (timestamp : Int) : List Msg :=
  if some fromUserId = userId then log
  else if some fromUserId = partnerId then
    if hasRecentDuplicate log message timestamp then log
    else log ++ [⟨message, Sender.partner, timestamp, false⟩]
  else log

/-- An inbound `receive_message` event payload. -/
structure RecvEvent where
  message : String
  fromUserId : String
  timestamp : Int
deriving DecidableEq

/-- Folding `messageListener` over a sequence of inbound events. -/
def receiveAll (userId partnerId : Option String) (log : List Msg)
    (events : List RecvEvent) : List Msg :=
  events.foldl (fun l e => receiveMessage userId partnerId l e.message e.fromUserId e.timestamp) log

/-- Effect of `messageSeenListener` (chat.tsx lines 148-158) on the log for
a `message_seen` event `{ fromUserId, timestamp }`: when the event is from
the current partner, map over the log turning `seen` on for every entry
with sender `user` and the matching timestamp. -/
def messageSeen (partnerId : Option String) (log : List Msg)
    (fromUserId : String) (timestamp : Int) : List Msg :=
  if some fromUserId = partnerId then
    log.map (fun m =>
      if m.sender = Sender.user ∧ m.timestamp = timestamp then
        { m with seen := true }
      else m)
  else log

/-- Modelled from the spec (for comparison with `messageSeen` only):
"marks the most recent unseen `local` message with matching timestamp as
`seen = true`". Marks just the last unseen user entry with the matching
timestamp, leaving every other entry untouched. -/
def spec_messageSeen (partnerId : Option String) (log : List Msg)
    (fromUserId : String) (timestamp : Int) : List Msg :=
  if some fromUserId = partnerId then
    let idxs := (List.range log.length).filter (fun i =>
      match log.get? i with
      | some m => decide (m.sender = Sender.user) && decide (m.timestamp = timestamp)
          && decide (m.seen = false)
      | none => false)
    match idxs.getLast? with
    | some j => log.set j (match log.get? j with
        | some m => { m with seen := true }
        | none => ⟨"", Sender.user, 0, true⟩)
    | none => log
  else log

/-- Modelled from chat.tsx line 89 / part of the store's connect handler:
the two participant ids sorted lexicographically and joined with a
separator (`[a, b].sort().join(sep)`). The JS default sort on two strings
gives the lexicographically smaller first; Lean's `String` linear order is
the same character-by-character comparison. -/
def sortJoin (a b sep : String) : String :=
  if a ≤ b then a ++ sep ++ b else b ++ sep ++ a

/-- Random-mode room id: `[userId, randomPartnerId].sort().join('-')`
(chat.tsx line 89, store connect handler). -/
def randomRoomId (a b : String) : String := sortJoin a b "-"

/-- Friend-mode room id: `[userId, friendId].sort().join('_')`
(friend chat screen, store connect handler). -/
def friendRoomId (a b : String) : String := sortJoin a b "_"

/-- JS `String.prototype.trim()`: strip leading and trailing whitespace
characters. -/
def jsTrim (s : String) : String :=
  ⟨((s.data.dropWhile Char.isWhitespace).reverse.dropWhile Char.isWhitespace).reverse⟩

/-- JS falsiness of a nullable string (`!x` is true for null and for the empty string). -/
def strFalsy (o : Option String) : Bool :=
  match o with
  | none => true
  | some s => s.data.isEmpty

/-- Error surfaced by `sendMessage` via a toast: empty input
("Message cannot be empty."), missing session/connection ("Chat is not
properly initialized."), or transport failure ("Failed to send message."). -/
inductive SendError where
  | emptyInput
  | notReady
  | transport
deriving DecidableEq

/-- Payload of the outbound `send_message` event:
`{ toUserId, message, fromUserId, timestamp }`. -/
structure SendEvent where
  toUserId : String
  message : String
  fromUserId : String
  timestamp : Int
deriving DecidableEq

/-- State read by `sendMessage` in chat.tsx. -/
structure SendState where
  input : String
  messages : List Msg
  userId : Option String
  partnerId : Option String
  socketConnected : Bool
  isSending : Bool
deriving DecidableEq

/-- Outcome of one `sendMessage` call: the new `messages` and `input`
state, the `send_message` events emitted, and the error toast shown (if
any). -/
structure SendResult where
  messages : List Msg
  input : String
  emitted : List SendEvent
  error : Option SendError
deriving DecidableEq

/-- Function `sendMessage` of chat.tsx (lines 295-334). Guards in source order:
the `isSending` re-entrancy guard, the empty-trimmed-input check
(`!input.trim()`), and the readiness check
(`!userId || !randomPartnerId || !socket?.connected`, JS falsiness). On
the main path the optimistic local message is appended and the input
cleared before `socket.emit`; `emitOk = false` models the emit throwing,
in which case the catch branch rolls back with
`prev.filter(msg => msg.timestamp !== timestamp)` and shows an error. -/
def sendMessage (s : SendState) (now : Int) (emitOk : Bool) : SendResult :=
  if s.isSending then
    ⟨s.messages, s.input, [], none⟩
  else if (jsTrim s.input).data.isEmpty then
    ⟨s.messages, s.input, [], some SendError.emptyInput⟩
  else if strFalsy s.userId || strFalsy s.partnerId || !s.socketConnected then
    ⟨s.messages, s.input, [], some SendError.notReady⟩
  else
    let optimistic : List Msg := s.messages ++ [⟨s.input, Sender.user, now, false⟩]
    if emitOk then
      ⟨optimistic, "",
        [⟨s.partnerId.getD "", s.input, s.userId.getD "", now⟩], none⟩
    else
      ⟨optimistic.filter (fun m => decide (m.timestamp ≠ now)), "", [],
        some SendError.transport⟩

/-- State read and written by `partnerDisconnectedListener` in chat.tsx:
the recorded time of the last accepted disconnect signal
(`lastDisconnectTime`, initially `null`) and the "chat ended" modal flag
(`partnerLeftVisible`). -/
structure DiscState where
  lastDisconnectTime : Option Int
  partnerLeftVisible : Bool
deriving DecidableEq

/-- The grace-period guard of `partnerDisconnectedListener`:
`lastDisconnectTime && now - lastDisconnectTime < DISCONNECT_GRACE_PERIOD`.
JS truthiness makes a recorded time of `0` behave like no recorded time. -/
def discGuard (lastDisconnectTime : Option Int) (now : Int) : Bool :=
  match lastDisconnectTime with
  | none => false
  | some t => decide (t ≠ 0) && decide (now - t < 60000)

/-- Handler `partnerDisconnectedListener` (chat.tsx lines 134-146): ignore events
whose `disconnectedUserId` is not the current partner; ignore a signal
arriving within the grace period of the previously recorded one; otherwise
record `now` and surface the "chat ended" modal. -/
def partnerDisconnected (partnerId : Option String) (s : DiscState)
    (disconnectedUserId : String) (now : Int) : DiscState :=
  if some disconnectedUserId = partnerId then
    if discGuard s.lastDisconnectTime now then s
    else ⟨some now, true⟩
  else s

/-- Connection status field of the socket store. -/
inductive ConnStatus where
  | disconnected
  | connecting
  | connected
deriving DecidableEq

/-- A live socket handle: whether it is currently connected, and an opaque
session id distinguishing handles. -/
structure Socket where
  connected : Bool
  sid : Nat
deriving DecidableEq

/-- A received friend request `{ fromUserId, fromUsername }`. -/
structure FriendReq where
  fromUserId : String
  fromUsername : String
deriving DecidableEq

/-- A sent-friend-request record `{ fromUserId, toUserId, fromUsername }`. -/
structure FriendReqSent where
  fromUserId : String
  toUserId : String
  fromUsername : String
deriving DecidableEq

/-- The socket store state (the zustand store the screens import: socket
handle, identity, random- and friend-session fields, and flags). -/
structure StoreState where
  socket : Option Socket
  userId : Option String
  randomPartnerId : Option String
  randomChatType : Option String
  friendPartnerId : Option String
  friendChatType : Option String
  isSearching : Bool
  username : Option String
  randomPartnerName : Option String
  friendPartnerName : Option String
  isPartnerTyping : Bool
  connectionStatus : ConnStatus
  friendRequest : Option FriendReq
  friendRequestSent : Option FriendReqSent
  isConnecting : Bool
deriving DecidableEq

/-- Outward effect of a `connectSocket` call: disconnecting an old socket
handle, or opening a new connection for a user id. -/
inductive ConnAction where
  | disconnect (sid : Nat)
  | openConn (userId : String) (sid : Nat)
deriving DecidableEq

/-- Membership in the regex character class `[0-9a-fA-F]`. -/
def isHexChar (c : Char) : Bool :=
  c.isDigit || (decide ('a' ≤ c) && decide (c ≤ 'f'))
    || (decide ('A' ≤ c) && decide (c ≤ 'F'))

/-- The 24-hexadecimal-character id check `/^[0-9a-fA-F]{24}$/`. -/
def isValidObjectId (s : String) : Bool :=
  decide (s.data.length = 24) && s.data.all isHexChar

/-- The synchronous part of `connectSocket(userId)` in the socket store.
Guards in source order: the id-format guard (return), the
already-connected-with-same-userId guard (return), the `isConnecting`
guard (return). Then any existing socket is disconnected
(`socket.disconnect()` plus clearing the handle), the status is set to
`connecting`, a fresh not-yet-connected socket (session id `freshSid`) is
opened, and `socket` and `userId` are stored. Event-handler registration
and the later asynchronous `connect` event are outside this call. -/
def connectSocket (s : StoreState) (userId : String) (freshSid : Nat) :
    StoreState × List ConnAction :=
  if !isValidObjectId userId then (s, [])
  else if (match s.socket with
      | some sk => sk.connected && decide (s.userId = some userId)
      | none => false) then (s, [])
  else if s.isConnecting then (s, [])
  else
    let (s1, acts1) :=
      match s.socket with
      | some sk =>
        ({ s with
            socket := none, connectionStatus := ConnStatus.disconnected,
            isConnecting := false }, [ConnAction.disconnect sk.sid])
      | none => (s, ([] : List ConnAction))
    let s2 := { s1 with connectionStatus := ConnStatus.connecting, isConnecting := true }
    ({ s2 with socket := some ⟨false, freshSid⟩, userId := some userId },
      acts1 ++ [ConnAction.openConn userId freshSid])

/-- Function `resetRandomChatState` of the socket store: clears the random-session
fields and the shared flags `isPartnerTyping` and `isSearching`. -/
def resetRandomChatState (s : StoreState) : StoreState :=
  { s with
      randomPartnerId := none, randomChatType := none,
      randomPartnerName := none, isPartnerTyping := false, isSearching := false }

/-! ### Helper lemmas -/

theorem sortJoin_comm (a b sep : String) : sortJoin a b sep = sortJoin b a sep := by
  unfold sortJoin
  rcases le_total a b with h | h
  · by_cases h2 : b ≤ a
    · have hab : a = b := le_antisymm h h2
      subst hab; rfl
    · rw [if_pos h, if_neg h2]
  · by_cases h2 : a ≤ b
    · have hab : a = b := le_antisymm h2 h
      subst hab; rfl
    · rw [if_neg h2, if_pos h]

theorem append_sep_ne (x y : String) : x ++ "-" ++ y ≠ x ++ "_" ++ y := by
  intro h
  have hd : (x ++ "-" ++ y).data = (x ++ "_" ++ y).data := congrArg String.data h
  rw [String.data_append, String.data_append, String.data_append, String.data_append] at hd
  rw [List.append_assoc, List.append_assoc] at hd
  have h2 := List.append_cancel_left hd
  have h3 : ('-' : Char) = '_' := by
    have : ("-" : String).data = ['-'] := rfl
    rw [this] at h2
    have : ("_" : String).data = ['_'] := rfl
    rw [this] at h2
    exact (List.cons.injEq _ _ _ _ ▸ h2).1
  exact absurd h3 (by decide)

theorem hasRecentDuplicate_eq_true (log : List Msg) (msg : String) (ts : Int) :
    hasRecentDuplicate log msg ts = true ↔
      ∃ m ∈ log, m.sender = Sender.partner ∧ m.text = msg ∧ (m.timestamp - ts).natAbs < 1000 := by
  unfold hasRecentDuplicate
  simp only [List.any_eq_true, List.mem_filter, Bool.and_eq_true, decide_eq_true_eq]
  constructor
  · rintro ⟨m, ⟨hm, hw⟩, ht, hs⟩
    exact ⟨m, hm, hs, ht, hw⟩
  · rintro ⟨m, hm, hs, ht, hw⟩
    exact ⟨m, ⟨hm, hw⟩, ht, hs⟩

/-! ### C2: room id determinism and cross-mode separation -/

/-- C2: for all participant id pairs, `roomId(a, b) = roomId(b, a)` in both
modes (the two ids are sorted before joining), and the random-mode room id
(separator '-') never equals the friend-mode room id (separator '_') for
the same pair. -/
theorem roomId_symm_and_modes_disjoint :
    (∀ a b : String, randomRoomId a b = randomRoomId b a) ∧
    (∀ a b : String, friendRoomId a b = friendRoomId b a) ∧
    (∀ a b : String, randomRoomId a b ≠ friendRoomId a b) := by
  refine ⟨fun a b => sortJoin_comm a b "-", fun a b => sortJoin_comm a b "_", fun a b => ?_⟩
  unfold randomRoomId friendRoomId sortJoin
  by_cases h : a ≤ b
  · rw [if_pos h, if_pos h]
    exact append_sep_ne a b
  · rw [if_neg h, if_neg h]
    exact append_sep_ne b a

/-- Witness for C2 at concrete ids. -/
theorem roomId_symm_and_modes_disjoint_witness :
    randomRoomId "alice" "bob" = randomRoomId "bob" "alice" ∧
    randomRoomId "alice" "bob" ≠ friendRoomId "alice" "bob" :=
  ⟨roomId_symm_and_modes_disjoint.1 "alice" "bob",
   roomId_symm_and_modes_disjoint.2.2 "alice" "bob"⟩

/-! ### C4: self-echo guard -/

/-- C4: the inbound message handler leaves the log unchanged whenever the
event's `fromUserId` equals the local `userId`, and consequently events
from self contribute nothing to the log over any event sequence: folding
the handler over any sequence gives the same log as folding it over the
sequence with the self events removed. -/
theorem self_echo_guard (u : String) (pid : Option String) :
    (∀ (log : List Msg) (msg : String) (ts : Int),
      receiveMessage (some u) pid log msg u ts = log) ∧
    (∀ (log : List Msg) (events : List RecvEvent),
      receiveAll (some u) pid log events
        = receiveAll (some u) pid log (events.filter (fun e => e.fromUserId != u))) := by
  have hself : ∀ (log : List Msg) (msg : String) (ts : Int),
      receiveMessage (some u) pid log msg u ts = log := by
    intro log msg ts
    unfold receiveMessage
    rw [if_pos rfl]
  refine ⟨hself, ?_⟩
  intro log events
  induction events generalizing log with
  | nil => rfl
  | cons e es ih =>
    by_cases h : e.fromUserId = u
    · have hfe : List.filter (fun e : RecvEvent => e.fromUserId != u) (e :: es)
          = List.filter (fun e : RecvEvent => e.fromUserId != u) es := by
        simp [List.filter_cons, h]
      rw [hfe]
      show receiveAll (some u) pid
          (receiveMessage (some u) pid log e.message e.fromUserId e.timestamp) es
        = receiveAll (some u) pid log (es.filter (fun e => e.fromUserId != u))
      rw [h, hself]
      exact ih log
    · have hfe : List.filter (fun e : RecvEvent => e.fromUserId != u) (e :: es)
          = e :: List.filter (fun e : RecvEvent => e.fromUserId != u) es := by
        simp [List.filter_cons, h]
      rw [hfe]
      show receiveAll (some u) pid
          (receiveMessage (some u) pid log e.message e.fromUserId e.timestamp) es
        = receiveAll (some u) pid
          (receiveMessage (some u) pid log e.message e.fromUserId e.timestamp)
          (es.filter (fun e => e.fromUserId != u))
      exact ih _

/-! ### C10: frame of resetRandomChatState -/

/-- C10: `resetRandomChatState` clears exactly the random-session fields
(`randomPartnerId`, `randomChatType`, `randomPartnerName`) and the shared
flags `isPartnerTyping` and `isSearching`, and leaves every other store
field unchanged — in particular all friend-session fields, the socket
handle, the identity fields, the connection status and the friend-request
records. This holds for every store state, including states where a friend
chat is concurrently active. -/
theorem resetRandomChatState_frame (s : StoreState) :
    (resetRandomChatState s).randomPartnerId = none ∧
    (resetRandomChatState s).randomChatType = none ∧
    (resetRandomChatState s).randomPartnerName = none ∧
    (resetRandomChatState s).isPartnerTyping = false ∧
    (resetRandomChatState s).isSearching = false ∧
    (resetRandomChatState s).friendPartnerId = s.friendPartnerId ∧
    (resetRandomChatState s).friendChatType = s.friendChatType ∧
    (resetRandomChatState s).friendPartnerName = s.friendPartnerName ∧
    (resetRandomChatState s).socket = s.socket ∧
    (resetRandomChatState s).userId = s.userId ∧
    (resetRandomChatState s).username = s.username ∧
    (resetRandomChatState s).connectionStatus = s.connectionStatus ∧
    (resetRandomChatState s).friendRequest = s.friendRequest ∧
    (resetRandomChatState s).friendRequestSent = s.friendRequestSent ∧
    (resetRandomChatState s).isConnecting = s.isConnecting :=
  ⟨rfl, rfl, rfl, rfl, rfl, rfl, rfl, rfl, rfl, rfl, rfl, rfl, rfl, rfl, rfl⟩

/-! ### C1: inbound message dedup -/

/-- C1: for an inbound `receive_message` event from the current partner
(and not from self), the handler returns the log unchanged when some
existing entry has sender `partner`, identical text and a timestamp within
the dedup window of the incoming one, and otherwise appends the message as
a remote entry. Consequently, for two inbound remote messages with
identical text and timestamps within the dedup window, at most one is
appended: whenever the first event changed the log, the second leaves it
unchanged. -/
theorem receive_message_dedup (uid pid : Option String) (log : List Msg)
    (msg f : String) (ts : Int) (hp : some f = pid) (hu : some f ≠ uid) :
    ((∃ m ∈ log, m.sender = Sender.partner ∧ m.text = msg ∧ (m.timestamp - ts).natAbs < 1000) →
      receiveMessage uid pid log msg f ts = log) ∧
    (¬(∃ m ∈ log, m.sender = Sender.partner ∧ m.text = msg ∧ (m.timestamp - ts).natAbs < 1000) →
      receiveMessage uid pid log msg f ts = log ++ [⟨msg, Sender.partner, ts, false⟩]) ∧
    (∀ t1 t2 : Int, (t1 - t2).natAbs < 1000 →
      receiveMessage uid pid log msg f t1 ≠ log →
      receiveMessage uid pid (receiveMessage uid pid log msg f t1) msg f t2
        = receiveMessage uid pid log msg f t1) := by
  have key : ∀ (l : List Msg) (t : Int),
      receiveMessage uid pid l msg f t =
        if hasRecentDuplicate l msg t then l else l ++ [⟨msg, Sender.partner, t, false⟩] := by
    intro l t
    unfold receiveMessage
    rw [if_neg hu, if_pos hp]
  refine ⟨?_, ?_, ?_⟩
  · intro hex
    rw [key, if_pos ((hasRecentDuplicate_eq_true log msg ts).mpr hex)]
  · intro hnex
    rw [key, if_neg (fun hb => hnex ((hasRecentDuplicate_eq_true log msg ts).mp hb))]
  · intro t1 t2 hw hchanged
    have h1 : receiveMessage uid pid log msg f t1 = log ++ [⟨msg, Sender.partner, t1, false⟩] := by
      rw [key]
      by_cases hd : hasRecentDuplicate log msg t1
      · exact absurd (by rw [key, if_pos hd]) hchanged
      · rw [if_neg hd]
    rw [h1, key, if_pos]
    exact (hasRecentDuplicate_eq_true _ msg t2).mpr
      ⟨⟨msg, Sender.partner, t1, false⟩, List.mem_append_right _ (List.mem_singleton.mpr rfl),
        rfl, rfl, hw⟩

/-- Witness for C1: on an empty log, an inbound "hi" at t=1000 is appended
and a replay of "hi" at t=1500 (within the 1s window) is discarded. -/
theorem receive_message_dedup_witness :
    receiveMessage (some "u") (some "p")
        (receiveMessage (some "u") (some "p") [] "hi" "p" 1000) "hi" "p" 1500
      = receiveMessage (some "u") (some "p") [] "hi" "p" 1000 :=
  (receive_message_dedup (some "u") (some "p") [] "hi" "p" 0 (by decide) (by decide)).2.2
    1000 1500 (by decide) (by decide)

/-! ### C3: disconnect grace filtering -/

/-- C3 counterexample to the claim as stated: with the partner set and a
disconnect signal already recorded — at timestamp 0 — a second signal only
1 ms later (well within the 60 s grace period) is NOT ignored: the handler
records the new time again, because the JS guard
`lastDisconnectTime && ...` treats the recorded time `0` as falsy. Run:
first signal at t=0 is accepted (records 0, surfaces the modal); the
second at t=1 is accepted again instead of being suppressed. -/
theorem partner_disconnect_counterexample :
    partnerDisconnected (some "p") ⟨none, false⟩ "p" 0 = ⟨some 0, true⟩ ∧
    partnerDisconnected (some "p") ⟨some 0, true⟩ "p" 1 = ⟨some 1, true⟩ ∧
    (⟨some 1, true⟩ : DiscState) ≠ ⟨some 0, true⟩ := by decide

theorem discGuard_eq_false_iff (l : Option Int) (n : Int) :
    discGuard l n = false ↔ ∀ t : Int, l = some t → t ≠ 0 → 60000 ≤ n - t := by
  cases l with
  | none => simp [discGuard]
  | some t =>
    simp only [discGuard, Bool.and_eq_false_iff, decide_eq_false_iff_not, not_not, not_lt,
      Option.some.injEq]
    constructor
    · rintro (h0 | hge) t' ht' hne
      · exact absurd (ht' ▸ h0) hne
      · exact ht' ▸ hge
    · intro h
      by_cases h0 : t = 0
      · exact Or.inl h0
      · exact Or.inr (h t rfl h0)

/-- C3 (amended): events whose `disconnectedUserId` is not the current
partner are ignored; a signal arriving while a previous one is recorded at
a NONZERO timestamp less than 60 s earlier is ignored; otherwise the
signal's time is recorded and the "chat ended" modal surfaced. Two signals
for the same partner within 60 s, the first accepted at a positive
timestamp, produce exactly one transition: the second leaves the state
unchanged. (The nonzero/positive qualification is forced by the
counterexample: a recorded time of 0 is falsy in JS; real `Date.now()`
values are always positive.) -/
theorem partner_disconnect_grace (pid : Option String) (s : DiscState) (d : String)
    (now : Int) :
    (some d ≠ pid → partnerDisconnected pid s d now = s) ∧
    (some d = pid → ∀ t : Int, s.lastDisconnectTime = some t → t ≠ 0 → now - t < 60000 →
      partnerDisconnected pid s d now = s) ∧
    (some d = pid → (∀ t : Int, s.lastDisconnectTime = some t → t ≠ 0 → 60000 ≤ now - t) →
      partnerDisconnected pid s d now = ⟨some now, true⟩) ∧
    (∀ t2 : Int, some d = pid → 0 < now → t2 - now < 60000 →
      (∀ t : Int, s.lastDisconnectTime = some t → t ≠ 0 → 60000 ≤ now - t) →
      (partnerDisconnected pid s d now).partnerLeftVisible = true ∧
      partnerDisconnected pid (partnerDisconnected pid s d now) d t2
        = partnerDisconnected pid s d now) := by
  have haccept : some d = pid →
      (∀ t : Int, s.lastDisconnectTime = some t → t ≠ 0 → 60000 ≤ now - t) →
      partnerDisconnected pid s d now = ⟨some now, true⟩ := by
    intro hp hfresh
    unfold partnerDisconnected
    rw [if_pos hp, if_neg]
    rw [Bool.not_eq_true]
    exact (discGuard_eq_false_iff _ now).mpr hfresh
  refine ⟨?_, ?_, haccept, ?_⟩
  · intro hne
    unfold partnerDisconnected
    rw [if_neg hne]
  · intro hp t ht h0 hlt
    unfold partnerDisconnected
    rw [if_pos hp, if_pos]
    show discGuard s.lastDisconnectTime now = true
    rw [ht]
    show (decide (t ≠ 0) && decide (now - t < 60000)) = true
    rw [decide_eq_true h0, decide_eq_true hlt]
    rfl
  · intro t2 hp hpos hwin hfresh
    have h1 := haccept hp hfresh
    rw [h1]
    refine ⟨rfl, ?_⟩
    unfold partnerDisconnected
    rw [if_pos hp, if_pos]
    show discGuard (some now) t2 = true
    show (decide (now ≠ 0) && decide (t2 - now < 60000)) = true
    rw [decide_eq_true (by omega : now ≠ 0), decide_eq_true hwin]
    rfl

/-- Witness for C3 (amended): first signal at t=100 on a fresh session is
accepted and surfaces the modal; a second signal at t=150 changes
nothing. -/
theorem partner_disconnect_grace_witness :
    (partnerDisconnected (some "p") ⟨none, false⟩ "p" 100).partnerLeftVisible = true ∧
    partnerDisconnected (some "p") (partnerDisconnected (some "p") ⟨none, false⟩ "p" 100) "p" 150
      = partnerDisconnected (some "p") ⟨none, false⟩ "p" 100 :=
  (partner_disconnect_grace (some "p") ⟨none, false⟩ "p" 100).2.2.2 150 (by decide)
    (by decide) (by decide) (fun t ht _ => nomatch ht)

/-! ### C5 and C6: send preconditions and optimistic rollback -/

theorem data_isEmpty_iff (s : String) : s.data.isEmpty = true ↔ s = "" := by
  constructor
  · intro h
    cases s with
    | mk l =>
      cases l with
      | nil => rfl
      | cons c cs => exact absurd h (by simp [List.isEmpty])
  · intro h
    subst h
    rfl

/-- C5: with the re-entrancy flag clear, `sendMessage` fails with
`emptyInput` when the input trims to empty, fails with `notReady` when the
user id is missing/empty, the partner id is missing/empty, or the socket
is not connected — in both cases surfacing an error, leaving the log and
input unchanged and emitting nothing — and otherwise appends exactly one
optimistic local message stamped `now`, clears the input, and emits one
`send_message` event carrying `(toUserId, message, fromUserId,
timestamp)`. -/
theorem send_message_validation (s : SendState) (now : Int) (emitOk : Bool)
    (hns : s.isSending = false) :
    (jsTrim s.input = "" →
      sendMessage s now emitOk = ⟨s.messages, s.input, [], some SendError.emptyInput⟩) ∧
    (jsTrim s.input ≠ "" →
      (strFalsy s.userId = true ∨ strFalsy s.partnerId = true ∨ s.socketConnected = false) →
      sendMessage s now emitOk = ⟨s.messages, s.input, [], some SendError.notReady⟩) ∧
    (∀ u p : String, jsTrim s.input ≠ "" → s.userId = some u → u ≠ "" →
      s.partnerId = some p → p ≠ "" → s.socketConnected = true →
      sendMessage s now true
        = ⟨s.messages ++ [⟨s.input, Sender.user, now, false⟩], "",
            [⟨p, s.input, u, now⟩], none⟩) := by
  have hnsb : ¬ (s.isSending = true) := by rw [hns]; exact Bool.false_ne_true
  refine ⟨?_, ?_, ?_⟩
  · intro hempty
    unfold sendMessage
    rw [if_neg hnsb, if_pos ((data_isEmpty_iff _).mpr hempty)]
  · intro hne hbad
    unfold sendMessage
    rw [if_neg hnsb, if_neg (fun hb => hne ((data_isEmpty_iff _).mp hb)), if_pos]
    rcases hbad with hb | hb | hb
    · rw [hb]; rfl
    · rw [hb, Bool.or_true, Bool.true_or]
    · rw [hb]
      show (strFalsy s.userId || strFalsy s.partnerId || !false) = true
      rw [Bool.not_false, Bool.or_true]
  · intro u p hne hu hu0 hp hp0 hc
    have hfu : strFalsy s.userId = false := by
      rw [hu]
      show u.data.isEmpty = false
      rw [Bool.eq_false_iff]
      exact fun hb => hu0 ((data_isEmpty_iff u).mp hb)
    have hfp : strFalsy s.partnerId = false := by
      rw [hp]
      show p.data.isEmpty = false
      rw [Bool.eq_false_iff]
      exact fun hb => hp0 ((data_isEmpty_iff p).mp hb)
    unfold sendMessage
    rw [if_neg hnsb, if_neg (fun hb => hne ((data_isEmpty_iff _).mp hb)), if_neg, if_pos rfl]
    · rw [hu, hp]
      rfl
    · rw [hfu, hfp, hc]
      simp

/-- Witness for C5: a ready state sending "hi" appends the optimistic
message, clears the input and emits the event. -/
theorem send_message_validation_witness :
    sendMessage ⟨"hi", [], some "u", some "p", true, false⟩ 100 true
      = ⟨[] ++ [⟨"hi", Sender.user, 100, false⟩], "", [⟨"p", "hi", "u", 100⟩], none⟩ :=
  (send_message_validation ⟨"hi", [], some "u", some "p", true, false⟩ 100 true rfl).2.2
    "u" "p" (by decide) rfl (by decide) rfl (by decide) rfl

/-- C6 counterexample to the claim as stated: the rollback filter
`prev.filter(msg => msg.timestamp !== timestamp)` removes EVERY entry with
the failed send's timestamp, including a pre-existing partner message that
happens to share it. Starting from a log holding one partner message at
t=5, a failed send stamped t=5 leaves an empty log, not the pre-send
log. -/
theorem send_rollback_counterexample :
    (sendMessage ⟨"hi", [⟨"old", Sender.partner, 5, false⟩], some "u", some "p", true, false⟩
        5 false).messages = [] ∧
    (sendMessage ⟨"hi", [⟨"old", Sender.partner, 5, false⟩], some "u", some "p", true, false⟩
        5 false).messages ≠ [⟨"old", Sender.partner, 5, false⟩] := by decide

/-- C6 (amended): when the transport step of a ready send fails, the
optimistic message is rolled back by the timestamp filter and an error is
surfaced; the resulting log is the pre-send log with every entry carrying
the failed send's timestamp removed — which equals the pre-send log
exactly when no pre-existing entry shares that timestamp (the
qualification forced by the counterexample). -/
theorem send_rollback (s : SendState) (now : Int) (u p : String)
    (hns : s.isSending = false) (hne : jsTrim s.input ≠ "")
    (hu : s.userId = some u) (hu0 : u ≠ "") (hp : s.partnerId = some p) (hp0 : p ≠ "")
    (hc : s.socketConnected = true) :
    (sendMessage s now false).messages
      = s.messages.filter (fun m => decide (m.timestamp ≠ now)) ∧
    (sendMessage s now false).error = some SendError.transport ∧
    (sendMessage s now false).emitted = [] ∧
    ((∀ m ∈ s.messages, m.timestamp ≠ now) →
      (sendMessage s now false).messages = s.messages) := by
  have hnsb : ¬ (s.isSending = true) := by rw [hns]; exact Bool.false_ne_true
  have hfu : strFalsy s.userId = false := by
    rw [hu]
    show u.data.isEmpty = false
    rw [Bool.eq_false_iff]
    exact fun hb => hu0 ((data_isEmpty_iff u).mp hb)
  have hfp : strFalsy s.partnerId = false := by
    rw [hp]
    show p.data.isEmpty = false
    rw [Bool.eq_false_iff]
    exact fun hb => hp0 ((data_isEmpty_iff p).mp hb)
  have hmsgs : (sendMessage s now false).messages
      = s.messages.filter (fun m => decide (m.timestamp ≠ now)) := by
    unfold sendMessage
    rw [if_neg hnsb, if_neg (fun hb => hne ((data_isEmpty_iff _).mp hb)), if_neg]
    · show ((s.messages ++ [(⟨s.input, Sender.user, now, false⟩ : Msg)]).filter
          (fun m => decide (m.timestamp ≠ now)))
        = s.messages.filter (fun m => decide (m.timestamp ≠ now))
      rw [List.filter_append]
      have : List.filter (fun m : Msg => decide (m.timestamp ≠ now))
          [⟨s.input, Sender.user, now, false⟩] = [] := by
        simp [List.filter_cons]
      rw [this, List.append_nil]
    · rw [hfu, hfp, hc]
      simp
  refine ⟨hmsgs, ?_, ?_, ?_⟩
  · unfold sendMessage
    rw [if_neg hnsb, if_neg (fun hb => hne ((data_isEmpty_iff _).mp hb)), if_neg]
    · rfl
    · rw [hfu, hfp, hc]
      simp
  · unfold sendMessage
    rw [if_neg hnsb, if_neg (fun hb => hne ((data_isEmpty_iff _).mp hb)), if_neg]
    · rfl
    · rw [hfu, hfp, hc]
      simp
  · intro hnone
    rw [hmsgs]
    apply List.filter_eq_self.mpr
    intro m hm
    exact decide_eq_true (hnone m hm)

/-- Witness for C6 (amended): a failed send at t=5 from a log whose only
entry is stamped t=7 restores the original log. -/
theorem send_rollback_witness :
    (sendMessage ⟨"hi", [⟨"old", Sender.partner, 7, false⟩], some "u", some "p", true, false⟩
        5 false).messages = [⟨"old", Sender.partner, 7, false⟩] :=
  (send_rollback ⟨"hi", [⟨"old", Sender.partner, 7, false⟩], some "u", some "p", true, false⟩
      5 "u" "p" rfl (by decide) rfl (by decide) rfl (by decide) rfl).2.2.2 (by decide)

/-! ### C7: seen-receipt marking -/

/-- C7 counterexample to the claim as stated: when two local messages share
the matching timestamp, `messageSeenListener` marks BOTH (it maps over the
whole log), whereas marking only the most recent unseen local message with
that timestamp would leave the first one unseen. The code's output differs
from the spec-modelled most-recent-unseen marking. -/
theorem message_seen_counterexample :
    messageSeen (some "p") [⟨"a", Sender.user, 5, false⟩, ⟨"b", Sender.user, 5, false⟩] "p" 5
      = [⟨"a", Sender.user, 5, true⟩, ⟨"b", Sender.user, 5, true⟩] ∧
    spec_messageSeen (some "p")
        [⟨"a", Sender.user, 5, false⟩, ⟨"b", Sender.user, 5, false⟩] "p" 5
      = [⟨"a", Sender.user, 5, false⟩, ⟨"b", Sender.user, 5, true⟩] ∧
    messageSeen (some "p") [⟨"a", Sender.user, 5, false⟩, ⟨"b", Sender.user, 5, false⟩] "p" 5
      ≠ spec_messageSeen (some "p")
          [⟨"a", Sender.user, 5, false⟩, ⟨"b", Sender.user, 5, false⟩] "p" 5 := by decide

/-- C7 (amended): on a `message_seen` event from the current partner the
handler sets `seen = true` on EVERY local (sender `user`) message with the
matching timestamp — when that message is unique, this is the most recent
unseen one — and changes nothing else: every entry keeps its position,
text, sender and timestamp, non-matching entries are unchanged, and no
entry is added or removed; events from a non-partner id leave the log
unchanged. -/
theorem message_seen_marks_matching (pid : Option String) (log : List Msg)
    (f : String) (ts : Int) :
    (some f = pid →
      List.Forall₂ (fun m m' : Msg =>
        m'.text = m.text ∧ m'.sender = m.sender ∧ m'.timestamp = m.timestamp ∧
        (m.sender = Sender.user ∧ m.timestamp = ts → m'.seen = true) ∧
        (¬(m.sender = Sender.user ∧ m.timestamp = ts) → m' = m))
        log (messageSeen pid log f ts)) ∧
    (some f ≠ pid → messageSeen pid log f ts = log) := by
  constructor
  · intro hp
    unfold messageSeen
    rw [if_pos hp]
    rw [List.forall₂_map_right_iff]
    rw [List.forall₂_same]
    intro m _
    by_cases hc : m.sender = Sender.user ∧ m.timestamp = ts
    · rw [if_pos hc]
      exact ⟨rfl, rfl, rfl, fun _ => rfl, fun hn => absurd hc hn⟩
    · rw [if_neg hc]
      exact ⟨rfl, rfl, rfl, fun h => absurd h hc, fun _ => rfl⟩
  · intro hne
    unfold messageSeen
    rw [if_neg hne]

/-- Witness for C7 (amended): a `message_seen` event from a non-partner id
leaves a one-entry log unchanged, and a partner event relates the log to
its marked version. -/
theorem message_seen_marks_matching_witness :
    messageSeen (some "q") [⟨"a", Sender.user, 5, false⟩] "p" 5
      = [⟨"a", Sender.user, 5, false⟩] :=
  (message_seen_marks_matching (some "q") [⟨"a", Sender.user, 5, false⟩] "p" 5).2 (by decide)

/-! ### C8 and C9: connect idempotence, teardown and the id-format guard -/

/-- C8: `connectSocket` is a no-op (same state, no actions) when a socket
is already connected for the same identity, and a no-op while a connection
attempt is in progress; when connected under a DIFFERENT identity (and no
attempt is in progress, with a well-formed id), it disconnects the old
socket BEFORE opening the new connection, stores the fresh unconnected
socket and the new identity, and moves the status to `connecting`. -/
theorem connect_idempotent_and_teardown (s : StoreState) (uid : String) (n : Nat) :
    (∀ sk : Socket, s.socket = some sk → sk.connected = true → s.userId = some uid →
      connectSocket s uid n = (s, [])) ∧
    (s.isConnecting = true → connectSocket s uid n = (s, [])) ∧
    (∀ sk : Socket, isValidObjectId uid = true → s.socket = some sk → sk.connected = true →
      s.userId ≠ some uid → s.isConnecting = false →
      (connectSocket s uid n).2 = [ConnAction.disconnect sk.sid, ConnAction.openConn uid n] ∧
      (connectSocket s uid n).1.socket = some ⟨false, n⟩ ∧
      (connectSocket s uid n).1.userId = some uid ∧
      (connectSocket s uid n).1.connectionStatus = ConnStatus.connecting) := by
  refine ⟨?_, ?_, ?_⟩
  · intro sk hs hc hid
    unfold connectSocket
    by_cases hv : isValidObjectId uid
    · rw [if_neg (by rw [hv]; exact fun hb => Bool.false_ne_true hb), if_pos]
      rw [hs]
      show (sk.connected && decide (s.userId = some uid)) = true
      rw [hc, decide_eq_true hid]
      rfl
    · have hv2 : isValidObjectId uid = false := Bool.eq_false_iff.mpr hv
      rw [hv2]
      rfl
  · intro hcg
    unfold connectSocket
    by_cases hv : isValidObjectId uid
    · rw [if_neg (by rw [hv]; exact fun hb => Bool.false_ne_true hb)]
      by_cases hg : (match s.socket with
          | some sk => sk.connected && decide (s.userId = some uid)
          | none => false) = true
      · rw [if_pos hg]
      · rw [if_neg hg, if_pos hcg]
    · have hv2 : isValidObjectId uid = false := Bool.eq_false_iff.mpr hv
      rw [hv2]
      rfl
  · intro sk hv hs hc hid hcg
    have hguard : (match s.socket with
        | some sk => sk.connected && decide (s.userId = some uid)
        | none => false) = false := by
      rw [hs]
      show (sk.connected && decide (s.userId = some uid)) = false
      rw [decide_eq_false hid, Bool.and_false]
    unfold connectSocket
    rw [if_neg (by rw [hv]; exact fun hb => Bool.false_ne_true hb),
      if_neg (by rw [hguard]; exact Bool.false_ne_true),
      if_neg (by rw [hcg]; exact Bool.false_ne_true), hs]
    exact ⟨rfl, rfl, rfl, rfl⟩

/-- The store's initial state (all fields null/false/disconnected). -/
def initialStore : StoreState :=
  ⟨none, none, none, none, none, none, false, none, none, none, false,
    ConnStatus.disconnected, none, none, false⟩

/-- A store state connected as user "aaaa…a" with socket session id 7. -/
def connectedStoreA : StoreState :=
  ⟨some ⟨true, 7⟩, some "aaaaaaaaaaaaaaaaaaaaaaaa", none, none, none, none, false,
    none, none, none, false, ConnStatus.connected, none, none, false⟩

/-- Witness for C8: reconnecting as the already-connected identity is a
no-op, and connecting as a different identity tears down socket 7 before
opening the new connection. -/
theorem connect_idempotent_and_teardown_witness :
    connectSocket connectedStoreA "aaaaaaaaaaaaaaaaaaaaaaaa" 9 = (connectedStoreA, []) ∧
    (connectSocket connectedStoreA "bbbbbbbbbbbbbbbbbbbbbbbb" 9).2
      = [ConnAction.disconnect 7,
         ConnAction.openConn "bbbbbbbbbbbbbbbbbbbbbbbb" 9] :=
  ⟨(connect_idempotent_and_teardown connectedStoreA "aaaaaaaaaaaaaaaaaaaaaaaa" 9).1
      ⟨true, 7⟩ rfl rfl rfl,
   ((connect_idempotent_and_teardown connectedStoreA "bbbbbbbbbbbbbbbbbbbbbbbb" 9).2.2
      ⟨true, 7⟩ (by decide) rfl rfl (by decide) rfl).1⟩

/-- C9: `connectSocket` called with a userId that is not a
24-hexadecimal-character string (including the empty string) returns
without opening a connection and without changing any store field. -/
theorem connect_rejects_invalid_id (s : StoreState) (uid : String) (n : Nat)
    (h : ¬(uid.data.length = 24 ∧ ∀ c ∈ uid.data, isHexChar c = true)) :
    connectSocket s uid n = (s, []) := by
  have hv : isValidObjectId uid = false := by
    cases hb : isValidObjectId uid with
    | false => rfl
    | true =>
      exfalso
      apply h
      unfold isValidObjectId at hb
      rw [Bool.and_eq_true, decide_eq_true_eq, List.all_eq_true] at hb
      exact ⟨hb.1, hb.2⟩
  unfold connectSocket
  rw [hv]
  rfl

/-- Witness for C9: connecting with the empty user id leaves the initial
store untouched and opens nothing. -/
theorem connect_rejects_invalid_id_witness :
    connectSocket initialStore "" 0 = (initialStore, []) :=
  connect_rejects_invalid_id initialStore "" 0 (by decide)

end ChatApp
